import Mathlib

/-!
Shallow embedding of the undoubt-v2 real-time room coordination layer.

The definitions below are translated from the repository's WebSocket server
`src/server/src/websockets/ws.ts` and from the read-only HTTP snapshot route
`src/server/src/routes/doubtRoutes.ts`.  Connections (`ws` sockets) are
modelled as natural-number handles; the three in-memory maps of the server
(`rooms`, `socketUsers`, `roomAdmins`) become association lists; the Prisma
store becomes an explicit `DB` value threaded through the handlers; the
outbound `socket.send` / `broadcast` calls become an explicit list of
(recipient, message) pairs returned next to the new state.
-/

namespace Undoubt

/-- Row of the `Users` table (Prisma model `users`): id, name, email.
Emails are unique (`findUnique` on email). -/
structure UserRow where
  id : Nat
  uname : String
  email : String
deriving DecidableEq, Repr

/-- Row of the `Doubts` table (Prisma model `doubts`): serial id, owning
user, room code, optional doubt text (`null` for bare room markers),
vote count, answered flag.  `upvotes` is a signed integer: the store's
`decrement` has no floor. -/
structure DoubtRow where
  id : Nat
  user_id : Nat
  room : String
  doubt : Option String
  upvotes : Int
  answered : Bool
deriving DecidableEq, Repr

/-- The persistence gateway's state: both tables plus the next serial id the
store will hand out on `doubts.create`. -/
structure DB where
  users : List UserRow
  doubts : List DoubtRow
  nextDoubtId : Nat
deriving DecidableEq, Repr

/-- Prisma `client.users.findUnique({ where: { email } })`. -/
def findUserByEmail (db : DB) (email : String) : Option UserRow :=
  db.users.find? (fun u => u.email == email)

/-- Prisma `client.doubts.findFirst({ where: { room } })`, used by the join
handler as the room-existence check. -/
def findFirstDoubtByRoom (db : DB) (roomId : String) : Option DoubtRow :=
  db.doubts.find? (fun d => d.room == roomId)

/-- Lookup of a doubt row by its primary key. -/
def findDoubtById (db : DB) (doubtId : Nat) : Option DoubtRow :=
  db.doubts.find? (fun d => d.id == doubtId)

/-- Prisma `client.doubts.create({ data: { user_id, room [, doubt] } })`:
appends a fresh row (serial id, zero votes, not answered) and returns the
created row together with the new store. -/
def createDoubt (db : DB) (uid : Nat) (roomId : String) (text : Option String) :
    DB × DoubtRow :=
  let row : DoubtRow :=
    { id := db.nextDoubtId, user_id := uid, room := roomId, doubt := text,
      upvotes := 0, answered := false }
  ({ db with doubts := db.doubts ++ [row], nextDoubtId := db.nextDoubtId + 1 }, row)

/-- Store produced by a vote update: the matching row's count is shifted by
`delta`, every other row is untouched. -/
def votedDB (db : DB) (doubtId : Nat) (delta : Int) : DB :=
  let voted := db.doubts.map
    (fun d => if d.id == doubtId then { d with upvotes := d.upvotes + delta } else d)
  { db with doubts := voted }

/-- Prisma `client.doubts.update({ where: { id }, data: { upvotes:
{ increment/decrement: 1 } } })`.  Returns `none` when no row has that id
(Prisma throws in that case). -/
def updateUpvotes (db : DB) (doubtId : Nat) (delta : Int) : Option DB :=
  if db.doubts.any (fun d => d.id == doubtId) then
    some (votedDB db doubtId delta)
  else
    none

/-- Prisma `client.doubts.deleteMany({ where: { room } })`. -/
def deleteManyByRoom (db : DB) (roomId : String) : DB :=
  { db with doubts := db.doubts.filter (fun d => d.room != roomId) }

/-- Association-list reading of a JS `Map.get`. -/
def mapGet {κ α : Type} [DecidableEq κ] : List (κ × α) → κ → Option α
  | [], _ => none
  | (k', v) :: rest, k => if k' = k then some v else mapGet rest k

/-- Association-list writing of a JS `Map.set`: updates in place when the key
is present (JS maps keep insertion order), appends otherwise. -/
def mapSet {κ α : Type} [DecidableEq κ] : List (κ × α) → κ → α → List (κ × α)
  | [], k, v => [(k, v)]
  | (k', v') :: rest, k, v =>
    if k' = k then (k, v) :: rest else (k', v') :: mapSet rest k v

/-- JS `Map.delete`. -/
def mapDelete {κ α : Type} [DecidableEq κ] (m : List (κ × α)) (k : κ) :
    List (κ × α) :=
  m.filter (fun p => decide (p.1 ≠ k))

/-- JS `Set.add` on a socket set: no duplicates, insertion order kept. -/
def setAdd (s : List Nat) (x : Nat) : List Nat :=
  if x ∈ s then s else s ++ [x]

/-- JS `Set.delete` on a socket set. -/
def setErase (s : List Nat) (x : Nat) : List Nat :=
  s.filter (fun y => y != x)

/-- Value stored in the `socketUsers` map: the connection registry context
`{ userId, email, roomId? }`. -/
structure SocketCtx where
  userId : Nat
  email : String
  roomId : Option String
deriving DecidableEq, Repr

/-- The whole in-memory server state of `ws.ts`: the persistence gateway plus
the three module-level maps `rooms` (roomId → set of sockets), `socketUsers`
(socket → context) and `roomAdmins` (roomId → admin email). -/
structure ServerState where
  db : DB
  rooms : List (String × List Nat)
  socketUsers : List (Nat × SocketCtx)
  roomAdmins : List (String × String)
deriving DecidableEq, Repr

/-- Outbound wire messages, one constructor per distinct `socket.send` /
broadcast shape in `ws.ts`.  `caughtError` is the reply of the top-level
catch block (`{type:"error", payload:{message: error.message |\x7b|
"Invalid message format"}}`, text elided). -/
inductive OutMsg where
  | errorMsg (msg : String)
  | systemSuccess (message : String)
  | adminStatus (isAdmin : Bool)
  | newDoubtTriggered (doubt : String) (userEmail : String) (doubtId : Nat)
  | upvoteTriggered (doubtId : Nat)
  | downvoteTriggered (doubtId : Nat)
  | ack (msg : String)
  | caughtError
deriving DecidableEq, Repr

/-- One delivery: (recipient socket, message). -/
abbrev Send := Nat × OutMsg

/-- The `broadcast(sockets, message)` helper of `ws.ts`: sends the message to
every socket in the set. -/
def broadcast (sockets : List Nat) (message : OutMsg) : List Send :=
  sockets.map (fun c => (c, message))

/-- Parsed inbound envelopes, one constructor per `parsedMsg.type` the server
dispatches on, carrying exactly the payload fields each handler reads.
`other` is a well-formed envelope whose type matches no handler. -/
inductive InMsg where
  | join (email roomId : String)
  | checkAdmin (email roomId : String)
  | create (email roomId : String)
  | askDoubt (email roomId msg : String)
  | upvote (roomId : String) (doubtId : Nat)
  | downvote (roomId : String) (doubtId : Nat)
  | leave (roomId : String)
  | close (roomId : String)
  | other
deriving DecidableEq, Repr

/-- The in-place idiom `if(!rooms.has(r)) rooms.set(r, new Set());
rooms.get(r)?.add(socket)` of the join/create handlers. -/
def roomsAddMember (m : List (String × List Nat)) (roomId : String) (socket : Nat) :
    List (String × List Nat) :=
  match mapGet m roomId with
  | some s => mapSet m roomId (setAdd s socket)
  | none => mapSet m roomId (setAdd [] socket)

/-- The in-place idiom `rooms.get(r)?.delete(socket)` of the leave handler. -/
def roomsRemoveMember (m : List (String × List Nat)) (roomId : String) (socket : Nat) :
    List (String × List Nat) :=
  m.map (fun p => if p.1 = roomId then (p.1, setErase p.2 socket) else p)

/-- JOIN ROOM handler (`ws.ts` lines 53-100): room-existence check against the
store, then add the socket to the room's member set, then user lookup (silent
return when absent), then registry upsert and success unicast. -/
def handleJoin (st : ServerState) (socket : Nat) (email roomId : String) :
    ServerState × List Send :=
  match findFirstDoubtByRoom st.db roomId with
  | none => (st, [(socket, .errorMsg "Invalid room Id")])
  | some _ =>
    let st1 : ServerState := { st with rooms := roomsAddMember st.rooms roomId socket }
    match findUserByEmail st1.db email with
    | none => (st1, [])
    | some user =>
      let ctx : SocketCtx := ⟨user.id, email, some roomId⟩
      let st2 : ServerState := { st1 with socketUsers := mapSet st1.socketUsers socket ctx }
      (st2, [(socket, .systemSuccess "Successfully joined the room")])

/-- CHECK ADMIN handler (`ws.ts` lines 103-111). -/
def handleCheckAdmin (st : ServerState) (socket : Nat) (email roomId : String) :
    ServerState × List Send :=
  (st, [(socket, .adminStatus (mapGet st.roomAdmins roomId == some email))])

/-- CREATE ROOM handler (`ws.ts` lines 114-158): user lookup (silent return
when absent), member-set add, registry upsert, admin record, unconditional
room-marker `doubts.create`, then success and admin-status unicasts. -/
def handleCreate (st : ServerState) (socket : Nat) (email roomId : String) :
    ServerState × List Send :=
  match findUserByEmail st.db email with
  | none => (st, [])
  | some user =>
    let st1 : ServerState := { st with rooms := roomsAddMember st.rooms roomId socket }
    let ctx : SocketCtx := ⟨user.id, email, some roomId⟩
    let st2 : ServerState := { st1 with socketUsers := mapSet st1.socketUsers socket ctx }
    let st3 : ServerState := { st2 with roomAdmins := mapSet st2.roomAdmins roomId email }
    let created := createDoubt st3.db user.id roomId none
    ({ st3 with db := created.1 },
     [(socket, .systemSuccess "Room created successfully"),
      (socket, .adminStatus true)])

/-- ASK DOUBT handler (`ws.ts` lines 161-208): user lookup (silent return when
absent), membership check against the registry context, `doubts.create` with
the text, then broadcast to the room's member set when it exists. -/
def handleAskDoubt (st : ServerState) (socket : Nat) (email roomId msg : String) :
    ServerState × List Send :=
  match findUserByEmail st.db email with
  | none => (st, [])
  | some user =>
    match mapGet st.socketUsers socket with
    | none => (st, [(socket, .errorMsg "You are not in this room")])
    | some ctx =>
      if ctx.roomId ≠ some roomId then
        (st, [(socket, .errorMsg "You are not in this room")])
      else
        let created := createDoubt st.db user.id roomId (some msg)
        let st1 : ServerState := { st with db := created.1 }
        match mapGet st1.rooms roomId with
        | none => (st1, [])
        | some sockets =>
          (st1, broadcast sockets (.newDoubtTriggered msg email created.2.id))

/-- UPVOTE handler (`ws.ts` lines 211-239): store increment (throws when the
row is missing), broadcast to the room's member set, ack unicast. -/
def handleUpvote (st : ServerState) (socket : Nat) (roomId : String) (doubtId : Nat) :
    Except String (ServerState × List Send) :=
  match updateUpvotes st.db doubtId 1 with
  | none => .error "Record to update not found."
  | some db1 =>
    let st1 : ServerState := { st with db := db1 }
    let bmsgs :=
      match mapGet st1.rooms roomId with
      | none => []
      | some sockets => broadcast sockets (.upvoteTriggered doubtId)
    .ok (st1, bmsgs ++ [(socket, .ack "upvoted successfully")])

/-- DOWNVOTE handler (`ws.ts` lines 242-270): store decrement with no floor
(throws when the row is missing), broadcast to the room's member set, ack
unicast.  The broadcast carries only the doubt id, never a count. -/
def handleDownvote (st : ServerState) (socket : Nat) (roomId : String) (doubtId : Nat) :
    Except String (ServerState × List Send) :=
  match updateUpvotes st.db doubtId (-1) with
  | none => .error "Record to update not found."
  | some db1 =>
    let st1 : ServerState := { st with db := db1 }
    let bmsgs :=
      match mapGet st1.rooms roomId with
      | none => []
      | some sockets => broadcast sockets (.downvoteTriggered doubtId)
    .ok (st1, bmsgs ++ [(socket, .ack "downvoted successfully")])

/-- LEAVE ROOM handler (`ws.ts` lines 273-280): removes the socket from the
room's member set only; the registry context is untouched. -/
def handleLeave (st : ServerState) (socket : Nat) (roomId : String) :
    ServerState × List Send :=
  ({ st with rooms := roomsRemoveMember st.rooms roomId socket },
   [(socket, .ack "user left the room")])

/-- CLOSE ROOM handler (`ws.ts` lines 283-293): unconditionally deletes every
persisted doubt of the room, drops the room's directory entry (member set and
all), and unicasts a plain ack to the sender.  No admin check, no broadcast,
no closed flag. -/
def handleClose (st : ServerState) (socket : Nat) (roomId : String) :
    ServerState × List Send :=
  ({ st with db := deleteManyByRoom st.db roomId,
             rooms := mapDelete st.rooms roomId },
   [(socket, .ack "room closed")])

/-- Dispatch over `parsedMsg.type` (the chain of `if` statements in the
message handler; the type strings are mutually exclusive, so at most one
branch fires).  Vote handlers may throw into the surrounding catch. -/
def dispatch (st : ServerState) (socket : Nat) : InMsg →
    Except String (ServerState × List Send)
  | .join email roomId => .ok (handleJoin st socket email roomId)
  | .checkAdmin email roomId => .ok (handleCheckAdmin st socket email roomId)
  | .create email roomId => .ok (handleCreate st socket email roomId)
  | .askDoubt email roomId msg => .ok (handleAskDoubt st socket email roomId msg)
  | .upvote roomId doubtId => handleUpvote st socket roomId doubtId
  | .downvote roomId doubtId => handleDownvote st socket roomId doubtId
  | .leave roomId => .ok (handleLeave st socket roomId)
  | .close roomId => .ok (handleClose st socket roomId)
  | .other => .ok (st, [])

/-- The whole `socket.on("message")` callback: `none` stands for an inbound
buffer on which `JSON.parse` or a required-field access throws before any
state change; the catch block answers the sender alone with an error reply
and the callback returns normally. -/
def handleMessage (st : ServerState) (socket : Nat) (parsedMsg : Option InMsg) :
    ServerState × List Send :=
  match parsedMsg with
  | none => (st, [(socket, .caughtError)])
  | some m =>
    match dispatch st socket m with
    | .ok res => res
    | .error _ => (st, [(socket, .caughtError)])

/-- Insertion step for the `orderBy: { id: 'asc' }` of the snapshot route. -/
def insertById (d : DoubtRow) : List DoubtRow → List DoubtRow
  | [] => [d]
  | e :: rest => if d.id ≤ e.id then d :: e :: rest else e :: insertById d rest

/-- Ascending-by-id ordering of the snapshot route. -/
def sortByIdAsc : List DoubtRow → List DoubtRow
  | [] => []
  | d :: rest => insertById d (sortByIdAsc rest)

/-- `GET /doubts/get-all` (`doubtRoutes.ts` lines 8-49): every doubt of the
room whose text is non-null, ordered by id ascending, vote counts returned
exactly as stored (no clamping). -/
def getAllDoubts (db : DB) (roomId : String) : List DoubtRow :=
  sortByIdAsc (db.doubts.filter (fun d => d.room == roomId && d.doubt.isSome))

/-- Email the registry currently associates with a socket, if any. -/
def senderEmail (st : ServerState) (socket : Nat) : Option String :=
  (mapGet st.socketUsers socket).map (fun ctx => ctx.email)

/-- Store for the running example: users Alice (admin of "R1") and Bob, plus
the room-marker doubt written by Alice's `create`. -/
def dbR1 : DB :=
  { users := [⟨1, "Alice", "a@x.edu"⟩, ⟨2, "Bob", "b@x.edu"⟩],
    doubts := [⟨1, 1, "R1", none, 0, false⟩],
    nextDoubtId := 2 }

/-- Running example state: sockets 1 (Alice) and 2 (Bob) are members of room
"R1"; Alice is its recorded admin. -/
def stR1 : ServerState :=
  { db := dbR1,
    rooms := [("R1", [1, 2])],
    socketUsers := [(1, ⟨1, "a@x.edu", some "R1"⟩), (2, ⟨2, "b@x.edu", some "R1"⟩)],
    roomAdmins := [("R1", "a@x.edu")] }

/-- State reached from `stR1` after the admin's socket 1 issues `close` for
"R1". -/
def stClosedR1 : ServerState :=
  (handleMessage stR1 1 (some (.close "R1"))).1

/-- Variant of the running example whose single doubt is a textual doubt with
zero votes, the starting point for the downvote runs. -/
def stVotes : ServerState :=
  { stR1 with db := { dbR1 with doubts := [⟨1, 1, "R1", some "why", 0, false⟩] } }

/-- `stVotes` after one `downvote` on doubt 1. -/
def stDown1 : ServerState :=
  (handleMessage stVotes 2 (some (.downvote "R1" 1))).1

/-- `stVotes` after two `downvote`s on doubt 1. -/
def stDown2 : ServerState :=
  (handleMessage stDown1 2 (some (.downvote "R1" 1))).1

/-- Fresh state for the duplicate-marker run: Alice registered, nothing else. -/
def stFresh : ServerState :=
  { db := { users := [⟨1, "Alice", "a@x.edu"⟩], doubts := [], nextDoubtId := 1 },
    rooms := [], socketUsers := [], roomAdmins := [] }

/-- `stFresh` after Alice's first `create` of "R1" on socket 1. -/
def stCreated : ServerState :=
  (handleMessage stFresh 1 (some (.create "a@x.edu" "R1"))).1

theorem mapGet_mapSet_self {κ α : Type} [DecidableEq κ] (m : List (κ × α)) (k : κ) (v : α) :
    mapGet (mapSet m k v) k = some v := by
  induction m with
  | nil => simp [mapSet, mapGet]
  | cons p rest ih =>
    obtain ⟨k', v'⟩ := p
    by_cases h : k' = k
    · simp [mapSet, mapGet, h]
    · simp [mapSet, mapGet, h, ih]

theorem mapGet_mapDelete_self {κ α : Type} [DecidableEq κ] (m : List (κ × α)) (k : κ) :
    mapGet (mapDelete m k) k = none := by
  induction m with
  | nil => rfl
  | cons p rest ih =>
    obtain ⟨k', v'⟩ := p
    simp only [mapDelete] at ih ⊢
    by_cases h : k' = k
    · simpa [List.filter_cons, h] using ih
    · simpa [List.filter_cons, h, mapGet] using ih

theorem mapGet_roomsAddMember_self (m : List (String × List Nat)) (r : String) (s : Nat) :
    mapGet (roomsAddMember m r s) r = some (setAdd ((mapGet m r).getD []) s) := by
  unfold roomsAddMember
  cases h : mapGet m r <;> simp [h, mapGet_mapSet_self]

theorem mapGet_roomsRemoveMember_self (m : List (String × List Nat)) (r : String) (s : Nat) :
    mapGet (roomsRemoveMember m r s) r = (mapGet m r).map (fun ms => setErase ms s) := by
  induction m with
  | nil => rfl
  | cons p rest ih =>
    obtain ⟨k', v'⟩ := p
    simp only [roomsRemoveMember, List.map_cons] at ih ⊢
    by_cases h : k' = r
    · subst h
      rw [show (if (k', v').1 = k' then ((k', v').1, setErase (k', v').2 s) else (k', v'))
            = (k', setErase v' s) from if_pos rfl]
      simp [mapGet]
    · rw [show (if (k', v').1 = r then ((k', v').1, setErase (k', v').2 s) else (k', v'))
            = (k', v') from if_neg h]
      simp [mapGet, h, ih]

theorem mem_setAdd_self (s : List Nat) (x : Nat) : x ∈ setAdd s x := by
  unfold setAdd
  by_cases h : x ∈ s <;> simp [h]

theorem not_mem_setErase_self (s : List Nat) (x : Nat) : x ∉ setErase s x := by
  simp [setErase]

theorem room_ne_of_mem_deleteManyByRoom (db : DB) (r : String) :
    ∀ d ∈ (deleteManyByRoom db r).doubts, d.room ≠ r := by
  intro d hd
  simp only [deleteManyByRoom, List.mem_filter, bne_iff_ne, ne_eq] at hd
  exact hd.2

theorem find?_voteMap (l : List DoubtRow) (i : Nat) (delta : Int) (row : DoubtRow)
    (h : l.find? (fun d => d.id == i) = some row) :
    (l.map (fun d => if d.id == i then { d with upvotes := d.upvotes + delta } else d)).find?
      (fun d => d.id == i) = some { row with upvotes := row.upvotes + delta } := by
  induction l with
  | nil => simp at h
  | cons d rest ih =>
    by_cases hd : (d.id == i) = true
    · simp only [List.find?, hd] at h
      injection h with h'
      subst h'
      simp [List.find?, hd]
    · have hd' : (d.id == i) = false := by simpa using hd
      simp only [List.find?, hd'] at h
      rw [List.map_cons, if_neg hd]
      simp only [List.find?, hd']
      exact ih h

theorem handleAskDoubt_no_room_entry (st : ServerState) (socket : Nat)
    (email roomId msg : String) (user : UserRow) (ctx : SocketCtx)
    (hu : findUserByEmail st.db email = some user)
    (hc : mapGet st.socketUsers socket = some ctx)
    (hr : ctx.roomId = some roomId)
    (hm : mapGet st.rooms roomId = none) :
    handleAskDoubt st socket email roomId msg
      = ({ st with db := (createDoubt st.db user.id roomId (some msg)).1 }, []) := by
  simp [handleAskDoubt, hu, hc, hr, hm]

/-- C1 counterexample: in `stR1`, socket 2's registry email ("b@x.edu") is not
the recorded admin email of room "R1" ("a@x.edu"), yet its `close` command
deletes the room's persisted doubts, drops the member set, and is answered
with the plain ack instead of an error — refuting the claimed unicast error
and no-state-change behaviour. -/
theorem c1_close_non_admin_cex :
    senderEmail stR1 2 ≠ mapGet stR1.roomAdmins "R1" ∧
    mapGet stR1.rooms "R1" = some [1, 2] ∧
    stR1.db.doubts ≠ [] ∧
    (handleMessage stR1 2 (some (.close "R1"))).1.db.doubts = [] ∧
    mapGet (handleMessage stR1 2 (some (.close "R1"))).1.rooms "R1" = none ∧
    (handleMessage stR1 2 (some (.close "R1"))).2 = [(2, OutMsg.ack "room closed")] := by
  decide

/-- C1 (amended): the close handler performs no admin check.  Even when the
sender's registry email differs from the room's recorded admin email, `close`
deletes every persisted doubt of the room, removes the room's member-set entry
from the directory, and replies only with the plain `room closed` ack to the
sender — no error reply and no broadcast. -/
theorem c1_close_non_admin_still_closes (st : ServerState) (socket : Nat) (roomId : String)
    (h : senderEmail st socket ≠ mapGet st.roomAdmins roomId) :
    (∀ d ∈ (handleMessage st socket (some (.close roomId))).1.db.doubts, d.room ≠ roomId) ∧
    mapGet (handleMessage st socket (some (.close roomId))).1.rooms roomId = none ∧
    (handleMessage st socket (some (.close roomId))).2 = [(socket, OutMsg.ack "room closed")] := by
  refine ⟨?_, ?_, rfl⟩
  · exact room_ne_of_mem_deleteManyByRoom st.db roomId
  · exact mapGet_mapDelete_self st.rooms roomId

/-- C1 witness: the amended close behaviour evaluated at the concrete
non-admin sender of `stR1`. -/
theorem c1_close_non_admin_still_closes_wit :
    (senderEmail stR1 2 ≠ mapGet stR1.roomAdmins "R1") ∧
    ((∀ d ∈ (handleMessage stR1 2 (some (.close "R1"))).1.db.doubts, d.room ≠ "R1") ∧
     mapGet (handleMessage stR1 2 (some (.close "R1"))).1.rooms "R1" = none ∧
     (handleMessage stR1 2 (some (.close "R1"))).2 = [(2, OutMsg.ack "room closed")]) :=
  ⟨by decide, c1_close_non_admin_still_closes stR1 2 "R1" (by decide)⟩

/-- C2 counterexample: in `stR1` the admin (socket 1, "a@x.edu") closes "R1":
the only outbound message is the unicast ack to socket 1 — the current member
on socket 2 receives no `room-closed` notice — and the room's member set is
removed from the directory, refuting both the claimed broadcast and the
claimed member retention. -/
theorem c2_close_admin_no_broadcast_cex :
    senderEmail stR1 1 = mapGet stR1.roomAdmins "R1" ∧
    mapGet stR1.rooms "R1" = some [1, 2] ∧
    (handleMessage stR1 1 (some (.close "R1"))).2 = [(1, OutMsg.ack "room closed")] ∧
    (∀ p ∈ (handleMessage stR1 1 (some (.close "R1"))).2, p.1 ≠ 2) ∧
    mapGet (handleMessage stR1 1 (some (.close "R1"))).1.rooms "R1" = none := by
  decide

/-- C2 (amended): when the connection registered with the room's recorded
admin email issues `close`, the handler deletes every persisted doubt of the
room, removes the room's directory entry together with its member set, and
sends a single unicast `room closed` ack to the sender; no closure notice is
broadcast to the other members and no closed flag exists. -/
theorem c2_close_admin_unicast_only (st : ServerState) (socket : Nat) (roomId a : String)
    (h1 : senderEmail st socket = some a)
    (h2 : mapGet st.roomAdmins roomId = some a) :
    (∀ d ∈ (handleMessage st socket (some (.close roomId))).1.db.doubts, d.room ≠ roomId) ∧
    mapGet (handleMessage st socket (some (.close roomId))).1.rooms roomId = none ∧
    (handleMessage st socket (some (.close roomId))).2 = [(socket, OutMsg.ack "room closed")] := by
  refine ⟨?_, ?_, rfl⟩
  · exact room_ne_of_mem_deleteManyByRoom st.db roomId
  · exact mapGet_mapDelete_self st.rooms roomId

/-- C2 witness: the amended close behaviour evaluated at the concrete admin
sender of `stR1`. -/
theorem c2_close_admin_unicast_only_wit :
    (senderEmail stR1 1 = some "a@x.edu") ∧
    (mapGet stR1.roomAdmins "R1" = some "a@x.edu") ∧
    ((∀ d ∈ (handleMessage stR1 1 (some (.close "R1"))).1.db.doubts, d.room ≠ "R1") ∧
     mapGet (handleMessage stR1 1 (some (.close "R1"))).1.rooms "R1" = none ∧
     (handleMessage stR1 1 (some (.close "R1"))).2 = [(1, OutMsg.ack "room closed")]) :=
  ⟨by decide, by decide, c2_close_admin_unicast_only stR1 1 "R1" "a@x.edu" (by decide) (by decide)⟩

/-- C3 counterexample: after the admin closed "R1" (state `stClosedR1`, whose
doubts table is empty), member socket 2's `ask-doubt` receives no reply at all
(in particular no unicast error) while a brand-new doubt row is persisted —
refuting the claimed error reply and the claimed absence of a new row. -/
theorem c3_ask_after_close_cex :
    stClosedR1.db.doubts = [] ∧
    (handleMessage stClosedR1 2 (some (.askDoubt "b@x.edu" "R1" "q1"))).2 = [] ∧
    (handleMessage stClosedR1 2 (some (.askDoubt "b@x.edu" "R1" "q1"))).1.db.doubts
      = [⟨2, 2, "R1", some "q1", 0, false⟩] := by
  decide

/-- C3 (amended): after a room has been closed, an `ask-doubt` from a member
whose registry context still names the room is silently accepted: the sender
gets no reply of any kind, a new doubt row is persisted, and nothing is
broadcast because the member set was discarded by the close. -/
theorem c3_ask_after_close_silently_persists (st : ServerState)
    (adminSock socket : Nat) (email roomId msg : String) (user : UserRow) (ctx : SocketCtx)
    (hu : findUserByEmail st.db email = some user)
    (hc : mapGet st.socketUsers socket = some ctx)
    (hr : ctx.roomId = some roomId) :
    (handleMessage (handleMessage st adminSock (some (.close roomId))).1 socket
        (some (.askDoubt email roomId msg))).2 = [] ∧
    (handleMessage (handleMessage st adminSock (some (.close roomId))).1 socket
        (some (.askDoubt email roomId msg))).1.db.doubts
      = (deleteManyByRoom st.db roomId).doubts
          ++ [⟨st.db.nextDoubtId, user.id, roomId, some msg, 0, false⟩] := by
  have key := handleAskDoubt_no_room_entry
    (handleMessage st adminSock (some (.close roomId))).1 socket email roomId msg user ctx
    hu hc hr (mapGet_mapDelete_self st.rooms roomId)
  constructor
  · show (handleAskDoubt (handleMessage st adminSock (some (.close roomId))).1 socket
        email roomId msg).2 = []
    rw [key]
  · show (handleAskDoubt (handleMessage st adminSock (some (.close roomId))).1 socket
        email roomId msg).1.db.doubts = _
    rw [key]
    rfl

/-- C3 witness: the amended post-close ask-doubt behaviour evaluated in `stR1`
with admin socket 1 closing and member socket 2 asking. -/
theorem c3_ask_after_close_silently_persists_wit :
    (findUserByEmail stR1.db "b@x.edu" = some ⟨2, "Bob", "b@x.edu"⟩) ∧
    (mapGet stR1.socketUsers 2 = some ⟨2, "b@x.edu", some "R1"⟩) ∧
    ((handleMessage (handleMessage stR1 1 (some (.close "R1"))).1 2
        (some (.askDoubt "b@x.edu" "R1" "q1"))).2 = [] ∧
     (handleMessage (handleMessage stR1 1 (some (.close "R1"))).1 2
        (some (.askDoubt "b@x.edu" "R1" "q1"))).1.db.doubts
       = (deleteManyByRoom stR1.db "R1").doubts
           ++ [⟨stR1.db.nextDoubtId, 2, "R1", some "q1", 0, false⟩]) :=
  ⟨by decide, by decide,
   c3_ask_after_close_silently_persists stR1 1 2 "b@x.edu" "R1" "q1"
     ⟨2, "Bob", "b@x.edu"⟩ ⟨2, "b@x.edu", some "R1"⟩ (by decide) (by decide) rfl⟩

theorem updateUpvotes_found (db : DB) (doubtId : Nat) (delta : Int)
    (hany : db.doubts.any (fun d => d.id == doubtId) = true) :
    updateUpvotes db doubtId delta = some (votedDB db doubtId delta) := by
  simp [updateUpvotes, hany]

theorem findDoubtById_votedDB (db : DB) (doubtId : Nat) (delta : Int) (row : DoubtRow)
    (h : findDoubtById db doubtId = some row) :
    findDoubtById (votedDB db doubtId delta) doubtId
      = some { row with upvotes := row.upvotes + delta } := by
  simp only [findDoubtById] at h
  simp only [findDoubtById, votedDB]
  exact find?_voteMap db.doubts doubtId delta row h

/-- C4 counterexample: starting from `stCreated` (where Alice's room marker
for (user 1, "R1") already exists), a second `create` for the same email and
room persists a second marker row — the marker count for (user 1, "R1") goes
from 1 to 2, refuting the claimed only-if-absent persistence. -/
theorem c4_create_duplicate_marker_cex :
    (stCreated.db.doubts.filter (fun d => d.user_id == 1 && d.room == "R1")).length = 1 ∧
    ((handleMessage stCreated 3 (some (.create "a@x.edu" "R1"))).1.db.doubts.filter
        (fun d => d.user_id == 1 && d.room == "R1")).length = 2 := by
  decide

/-- C4 (amended): the create handler performs no marker-existence check: when
the email resolves to an existing user, it always persists a fresh room-marker
doubt row, even when a marker for that (user, room) pair already exists, so a
reconnecting admin issuing `create` again duplicates the marker. -/
theorem c4_create_always_persists_marker (st : ServerState) (socket : Nat)
    (email roomId : String) (user : UserRow)
    (hu : findUserByEmail st.db email = some user)
    (hex : st.db.doubts.any (fun d => d.user_id == user.id && d.room == roomId) = true) :
    ((handleMessage st socket (some (.create email roomId))).1.db.doubts.filter
        (fun d => d.user_id == user.id && d.room == roomId)).length
      = (st.db.doubts.filter (fun d => d.user_id == user.id && d.room == roomId)).length + 1 := by
  show ((handleCreate st socket email roomId).1.db.doubts.filter _).length = _
  simp [handleCreate, hu, createDoubt, List.filter_append]

/-- C4 witness: the amended create behaviour evaluated at the reconnection
scenario from `stCreated`. -/
theorem c4_create_always_persists_marker_wit :
    (findUserByEmail stCreated.db "a@x.edu" = some ⟨1, "Alice", "a@x.edu"⟩) ∧
    (stCreated.db.doubts.any (fun d => d.user_id == 1 && d.room == "R1") = true) ∧
    (((handleMessage stCreated 3 (some (.create "a@x.edu" "R1"))).1.db.doubts.filter
        (fun d => d.user_id == 1 && d.room == "R1")).length
      = (stCreated.db.doubts.filter (fun d => d.user_id == 1 && d.room == "R1")).length + 1) :=
  ⟨by decide, by decide,
   c4_create_always_persists_marker stCreated 3 "a@x.edu" "R1"
     ⟨1, "Alice", "a@x.edu"⟩ (by decide) (by decide)⟩

/-- C5 counterexample: doubt 1 of `stVotes` starts at 0 votes; after two
`downvote` commands the stored count is -2 and the `get-all` snapshot route
returns that negative count unclamped — a negative vote count is displayed to
clients, refuting the claimed clamp at the point of display. -/
theorem c5_downvote_negative_snapshot_cex :
    ((getAllDoubts stVotes.db "R1").map (fun d => d.upvotes) = [0]) ∧
    ((getAllDoubts stDown2.db "R1").map (fun d => d.upvotes) = [-2]) ∧
    ((getAllDoubts stDown2.db "R1").any (fun d => decide (d.upvotes < 0)) = true) := by
  decide

/-- C5 (amended): a `downvote` on an existing doubt decrements the stored
count by one with no floor (the count may go negative), and the messages the
handler sends carry no count at all — every delivery is either the
`downvote triggered` broadcast with the doubt id or the ack to the sender.
The unclamped count is what the snapshot route then returns. -/
theorem c5_downvote_no_floor (st : ServerState) (socket : Nat) (roomId : String)
    (doubtId : Nat) (row : DoubtRow)
    (h : findDoubtById st.db doubtId = some row) :
    findDoubtById (handleMessage st socket (some (.downvote roomId doubtId))).1.db doubtId
      = some { row with upvotes := row.upvotes - 1 } ∧
    ∀ p ∈ (handleMessage st socket (some (.downvote roomId doubtId))).2,
      p.2 = OutMsg.downvoteTriggered doubtId ∨ p.2 = OutMsg.ack "downvoted successfully" := by
  have hf : st.db.doubts.find? (fun d => d.id == doubtId) = some row := h
  have hany : st.db.doubts.any (fun d => d.id == doubtId) = true :=
    List.any_eq_true.mpr
      ⟨row, List.mem_of_find?_eq_some hf,
       List.find?_some (p := fun (d : DoubtRow) => d.id == doubtId) hf⟩
  have hupd := updateUpvotes_found st.db doubtId (-1) hany
  constructor
  · have hres : (handleMessage st socket (some (.downvote roomId doubtId))).1
        = { st with db := votedDB st.db doubtId (-1) } := by
      simp [handleMessage, dispatch, handleDownvote, hupd]
    rw [hres, sub_eq_add_neg]
    exact findDoubtById_votedDB st.db doubtId (-1) row h
  · intro p hp
    cases hmg : mapGet st.rooms roomId with
    | none =>
      simp [handleMessage, dispatch, handleDownvote, hupd, hmg] at hp
      rw [hp]
      right
      rfl
    | some sockets =>
      simp [handleMessage, dispatch, handleDownvote, hupd, hmg, broadcast] at hp
      rcases hp with ⟨c, hc, hcp⟩ | hp
      · left
        rw [← hcp]
      · right
        rw [hp]

/-- C5 witness: the amended downvote behaviour evaluated at doubt 1 of
`stVotes`. -/
theorem c5_downvote_no_floor_wit :
    (findDoubtById stVotes.db 1 = some ⟨1, 1, "R1", some "why", 0, false⟩) ∧
    (findDoubtById (handleMessage stVotes 2 (some (.downvote "R1" 1))).1.db 1
       = some ⟨1, 1, "R1", some "why", -1, false⟩ ∧
     ∀ p ∈ (handleMessage stVotes 2 (some (.downvote "R1" 1))).2,
       p.2 = OutMsg.downvoteTriggered 1 ∨ p.2 = OutMsg.ack "downvoted successfully") :=
  ⟨by decide,
   c5_downvote_no_floor stVotes 2 "R1" 1 ⟨1, 1, "R1", some "why", 0, false⟩ (by decide)⟩

/-- C6: a `join` naming a roomId for which no persisted doubt row exists is
answered with the unicast "Invalid room Id" error and the handler returns the
state unchanged, so no room's member set is affected and the connection is
added to no room. -/
theorem c6_join_invalid_room (st : ServerState) (socket : Nat) (email roomId : String)
    (h : findFirstDoubtByRoom st.db roomId = none) :
    handleMessage st socket (some (.join email roomId))
      = (st, [(socket, OutMsg.errorMsg "Invalid room Id")]) := by
  simp [handleMessage, dispatch, handleJoin, h]

/-- C6 witness: the invalid-room join evaluated at `stR1` for the never
created room "R2". -/
theorem c6_join_invalid_room_wit :
    (findFirstDoubtByRoom stR1.db "R2" = none) ∧
    handleMessage stR1 2 (some (.join "b@x.edu" "R2"))
      = (stR1, [(2, OutMsg.errorMsg "Invalid room Id")]) :=
  ⟨by decide, c6_join_invalid_room stR1 2 "b@x.edu" "R2" (by decide)⟩

/-- C7: a successful `ask-doubt` (email resolves to a user, the sender's
registry context names the room, the room has a member set, and the sender is
among its members) broadcasts the new doubt to exactly the room's member set
— the asking connection included — and the doubtId carried by every delivery
equals the id returned by the persistence create call for that doubt. -/
theorem c7_ask_doubt_id_roundtrip (st : ServerState) (socket : Nat)
    (email roomId msg : String) (user : UserRow) (ctx : SocketCtx) (members : List Nat)
    (hu : findUserByEmail st.db email = some user)
    (hc : mapGet st.socketUsers socket = some ctx)
    (hr : ctx.roomId = some roomId)
    (hm : mapGet st.rooms roomId = some members)
    (hs : socket ∈ members) :
    (handleMessage st socket (some (.askDoubt email roomId msg))).2
      = broadcast members
          (OutMsg.newDoubtTriggered msg email (createDoubt st.db user.id roomId (some msg)).2.id) ∧
    (socket, OutMsg.newDoubtTriggered msg email (createDoubt st.db user.id roomId (some msg)).2.id)
      ∈ (handleMessage st socket (some (.askDoubt email roomId msg))).2 := by
  have h1 : (handleMessage st socket (some (.askDoubt email roomId msg))).2
      = broadcast members
          (OutMsg.newDoubtTriggered msg email (createDoubt st.db user.id roomId (some msg)).2.id) := by
    simp [handleMessage, dispatch, handleAskDoubt, hu, hc, hr, hm]
  refine ⟨h1, ?_⟩
  rw [h1]
  simp only [broadcast]
  exact List.mem_map.mpr ⟨socket, hs, rfl⟩

/-- C7 witness: the round-trip evaluated for Bob's socket 2 asking "hi" in
room "R1" of `stR1`. -/
theorem c7_ask_doubt_id_roundtrip_wit :
    (findUserByEmail stR1.db "b@x.edu" = some ⟨2, "Bob", "b@x.edu"⟩) ∧
    (mapGet stR1.rooms "R1" = some [1, 2]) ∧
    ((2 : Nat) ∈ [1, 2]) ∧
    ((handleMessage stR1 2 (some (.askDoubt "b@x.edu" "R1" "hi"))).2
       = broadcast [1, 2]
           (OutMsg.newDoubtTriggered "hi" "b@x.edu"
             (createDoubt stR1.db 2 "R1" (some "hi")).2.id) ∧
     (2, OutMsg.newDoubtTriggered "hi" "b@x.edu"
          (createDoubt stR1.db 2 "R1" (some "hi")).2.id)
       ∈ (handleMessage stR1 2 (some (.askDoubt "b@x.edu" "R1" "hi"))).2) :=
  ⟨by decide, by decide, by decide,
   c7_ask_doubt_id_roundtrip stR1 2 "b@x.edu" "R1" "hi" ⟨2, "Bob", "b@x.edu"⟩
     ⟨2, "b@x.edu", some "R1"⟩ [1, 2] (by decide) (by decide) rfl (by decide) (by decide)⟩

/-- C8: an inbound buffer that fails to parse into a well-formed command
(non-JSON, or missing payload fields making the handler throw before any
state change) is answered by the catch block with a single error reply to the
sending connection only; the server state is unchanged, nothing is delivered
to any other connection, and the message callback returns normally instead of
crashing the connection or process. -/
theorem c8_malformed_message_unicast_error (st : ServerState) (socket : Nat) :
    (handleMessage st socket none).1 = st ∧
    (handleMessage st socket none).2 = [(socket, OutMsg.caughtError)] ∧
    ∀ p ∈ (handleMessage st socket none).2, p.1 = socket := by
  refine ⟨rfl, rfl, ?_⟩
  intro p hp
  simp only [handleMessage, List.mem_singleton] at hp
  rw [hp]

/-- C9: a `join` whose roomId has a persisted doubt row but whose email has no
user row still adds the connection to the room's member set — so it is
included in every later broadcast to that room — while no registry context is
stored for it and no reply of any kind is sent to the sender. -/
theorem c9_join_unknown_email_ghost_member (st : ServerState) (socket : Nat)
    (email roomId : String) (row : DoubtRow)
    (hrow : findFirstDoubtByRoom st.db roomId = some row)
    (hu : findUserByEmail st.db email = none) :
    mapGet (handleMessage st socket (some (.join email roomId))).1.rooms roomId
      = some (setAdd ((mapGet st.rooms roomId).getD []) socket) ∧
    socket ∈ setAdd ((mapGet st.rooms roomId).getD []) socket ∧
    (handleMessage st socket (some (.join email roomId))).1.socketUsers = st.socketUsers ∧
    (handleMessage st socket (some (.join email roomId))).2 = [] ∧
    ∀ m : OutMsg, (socket, m) ∈ broadcast (setAdd ((mapGet st.rooms roomId).getD []) socket) m := by
  refine ⟨?_, mem_setAdd_self _ _, ?_, ?_, ?_⟩
  · have hadd := mapGet_roomsAddMember_self st.rooms roomId socket
    simpa [handleMessage, dispatch, handleJoin, hrow, hu] using hadd
  · simp [handleMessage, dispatch, handleJoin, hrow, hu]
  · simp [handleMessage, dispatch, handleJoin, hrow, hu]
  · intro m
    simp only [broadcast]
    exact List.mem_map.mpr ⟨socket, mem_setAdd_self _ _, rfl⟩

/-- C9 witness: the ghost-member join evaluated for the unregistered email
"c@x.edu" on socket 3 joining the existing room "R1" of `stR1`. -/
theorem c9_join_unknown_email_ghost_member_wit :
    (findFirstDoubtByRoom stR1.db "R1" = some ⟨1, 1, "R1", none, 0, false⟩) ∧
    (findUserByEmail stR1.db "c@x.edu" = none) ∧
    (mapGet (handleMessage stR1 3 (some (.join "c@x.edu" "R1"))).1.rooms "R1"
       = some (setAdd ((mapGet stR1.rooms "R1").getD []) 3) ∧
     3 ∈ setAdd ((mapGet stR1.rooms "R1").getD []) 3 ∧
     (handleMessage stR1 3 (some (.join "c@x.edu" "R1"))).1.socketUsers = stR1.socketUsers ∧
     (handleMessage stR1 3 (some (.join "c@x.edu" "R1"))).2 = [] ∧
     ∀ m : OutMsg, (3, m) ∈ broadcast (setAdd ((mapGet stR1.rooms "R1").getD []) 3) m) :=
  ⟨by decide, by decide,
   c9_join_unknown_email_ghost_member stR1 3 "c@x.edu" "R1" ⟨1, 1, "R1", none, 0, false⟩
     (by decide) (by decide)⟩

/-- C10: `leave` removes the connection from the room's member set but leaves
its registry context intact, so a following `ask-doubt` from the same
connection for the same room still passes the membership check: a new doubt
row is persisted and the broadcast goes exactly to the room's remaining
members (no longer including the sender). -/
theorem c10_leave_keeps_ctx_ask_still_works (st : ServerState) (socket : Nat)
    (email roomId msg : String) (user : UserRow) (ctx : SocketCtx) (members : List Nat)
    (hu : findUserByEmail st.db email = some user)
    (hc : mapGet st.socketUsers socket = some ctx)
    (hr : ctx.roomId = some roomId)
    (hm : mapGet st.rooms roomId = some members) :
    mapGet (handleMessage st socket (some (.leave roomId))).1.rooms roomId
      = some (setErase members socket) ∧
    socket ∉ setErase members socket ∧
    (handleMessage st socket (some (.leave roomId))).1.socketUsers = st.socketUsers ∧
    (handleMessage (handleMessage st socket (some (.leave roomId))).1 socket
        (some (.askDoubt email roomId msg))).1.db.doubts
      = st.db.doubts ++ [⟨st.db.nextDoubtId, user.id, roomId, some msg, 0, false⟩] ∧
    (handleMessage (handleMessage st socket (some (.leave roomId))).1 socket
        (some (.askDoubt email roomId msg))).2
      = broadcast (setErase members socket)
          (OutMsg.newDoubtTriggered msg email st.db.nextDoubtId) := by
  have hrm : mapGet (roomsRemoveMember st.rooms roomId socket) roomId
      = some (setErase members socket) := by
    rw [mapGet_roomsRemoveMember_self, hm]
    rfl
  refine ⟨hrm, not_mem_setErase_self _ _, rfl, ?_, ?_⟩
  · simp [handleMessage, dispatch, handleLeave, handleAskDoubt, hu, hc, hr, hrm, createDoubt]
  · simp [handleMessage, dispatch, handleLeave, handleAskDoubt, hu, hc, hr, hrm, createDoubt,
      broadcast]

/-- C10 witness: leave-then-ask evaluated for Bob's socket 2 in `stR1`; the
broadcast reaches exactly the remaining member socket 1. -/
theorem c10_leave_keeps_ctx_ask_still_works_wit :
    (findUserByEmail stR1.db "b@x.edu" = some ⟨2, "Bob", "b@x.edu"⟩) ∧
    (mapGet stR1.socketUsers 2 = some ⟨2, "b@x.edu", some "R1"⟩) ∧
    (mapGet stR1.rooms "R1" = some [1, 2]) ∧
    (mapGet (handleMessage stR1 2 (some (.leave "R1"))).1.rooms "R1"
       = some (setErase [1, 2] 2) ∧
     2 ∉ setErase [1, 2] 2 ∧
     (handleMessage stR1 2 (some (.leave "R1"))).1.socketUsers = stR1.socketUsers ∧
     (handleMessage (handleMessage stR1 2 (some (.leave "R1"))).1 2
        (some (.askDoubt "b@x.edu" "R1" "q2"))).1.db.doubts
       = stR1.db.doubts ++ [⟨stR1.db.nextDoubtId, 2, "R1", some "q2", 0, false⟩] ∧
     (handleMessage (handleMessage stR1 2 (some (.leave "R1"))).1 2
        (some (.askDoubt "b@x.edu" "R1" "q2"))).2
       = broadcast (setErase [1, 2] 2)
           (OutMsg.newDoubtTriggered "q2" "b@x.edu" stR1.db.nextDoubtId)) :=
  ⟨by decide, by decide, by decide,
   c10_leave_keeps_ctx_ask_still_works stR1 2 "b@x.edu" "R1" "q2" ⟨2, "Bob", "b@x.edu"⟩
     ⟨2, "b@x.edu", some "R1"⟩ [1, 2] (by decide) (by decide) rfl (by decide)⟩

end Undoubt
